import Mathlib

/-!
Shallow embedding of the peakpip command-line wrapper (`main.go`).

The program wraps the `pip` executable: each CLI verb either builds an
argument list and spawns `pip` as a subprocess, or issues HTTP GET requests
against the PyPI JSON/simple indexes.  We model the outside world (subprocess
exit codes and HTTP responses) as oracles in a `World` structure, and each
operation returns its Go result together with the ordered list of observable
effects (subprocess spawns, HTTP GETs, stdout prints) it performs.
-/

/-- Mirrors the Go struct `Package` (main.go lines 17-29); the Go
`map[string]string` field becomes an association list. -/
structure Package where
  name : String
  version : String
  summary : String
  description : String
  author : String
  homepage : String
  license : String
  keywords : List String
  classifiers : List String
  dependencies : List String
  urls : List (String × String)
  deriving Repr, DecidableEq

/-- Mirrors the Go struct `Release` (main.go lines 35-44). -/
structure Release where
  filename : String
  url : String
  packageType : String
  size : Int
  md5Digest : String
  sha256Digest : String
  uploadTime : String
  pythonVersion : String
  deriving Repr, DecidableEq

/-- Mirrors the Go struct `PackageInfo` (main.go lines 30-34); the Go
`map[string][]Release` field becomes an association list. -/
structure PackageInfo where
  info : Package
  releases : List (String × List Release)
  urls : List Release
  deriving Repr, DecidableEq

/-- Mirrors the Go struct `PeakPip` (main.go lines 45-55).  The `http.Client`
field is modelled by the `World` oracle instead; the remaining fields are the
configuration flags bound by cobra. -/
structure PeakPip where
  pythonPath : String
  pipPath : String
  concurrent : Int
  quiet : Bool
  verbose : Bool
  dryRun : Bool
  userInstall : Bool
  target : String
  deriving Repr, DecidableEq

/-- Mirrors `NewPeakPip` (main.go lines 56-63): zero values everywhere except
`concurrent = MaxConcurrency = 10`. -/
def NewPeakPip : PeakPip :=
  { pythonPath := ""
    pipPath := ""
    concurrent := 10
    quiet := false
    verbose := false
    dryRun := false
    userInstall := false
    target := "" }

/-- A `PeakPip` value after `Initialize` resolved the pip executable path. -/
def initPip (pipPath : String) : PeakPip :=
  { NewPeakPip with pipPath := pipPath }

/-- Mirrors the Go constant `PyPIURL` (main.go line 12). -/
def PyPIURL : String := "https://pypi.org/pypi"

/-- Mirrors the Go constant `PyPISimpleURL` (main.go line 13). -/
def PyPISimpleURL : String := "https://pypi.org/simple"

/-- The URL built by `GetPackageInfo` via `fmt.Sprintf("%s/%s/json", ...)`
(main.go line 84). -/
def infoURL (packageName : String) : String :=
  PyPIURL ++ "/" ++ packageName ++ "/json"

/-- The URL built by `SearchPackages` via `fmt.Sprintf("%s/%s/", ...)`
(main.go line 100). -/
def simpleURL (query : String) : String :=
  PyPISimpleURL ++ "/" ++ query ++ "/"

/-- Outcome of decoding an HTTP response body with `json.Decoder.Decode`
into a `PackageInfo` (main.go lines 93-96): either the body is malformed
JSON (carrying the decoder's error message) or it decodes to a record. -/
inductive JsonBody where
  | malformed (msg : String)
  | wellFormed (info : PackageInfo)
  deriving Repr, DecidableEq

/-- Outcome of `http.Client.Get`: a transport failure (non-nil `err`) or a
response with a status code and a body. -/
inductive HttpResult where
  | failure (msg : String)
  | response (status : Nat) (body : JsonBody)
  deriving Repr, DecidableEq

/-- Observable effects of one command invocation: spawning the wrapped
manager with an argument vector, issuing an HTTP GET, or printing to
stdout. -/
inductive Effect where
  | spawn (exe : String) (args : List String)
  | httpGet (url : String)
  | print (msg : String)
  deriving Repr, DecidableEq

/-- Go errors produced by the program, one constructor per `fmt.Errorf`
call site plus the subprocess exit error and cobra's argument-count
validation error. -/
inductive GoError where
  | fetchFailed (msg : String)
  | notFound (name : String)
  | decodeFailed (msg : String)
  | searchFailed (msg : String)
  | exitError (code : Int)
  | usage (msg : String)
  | wrap (msg : String) (e : GoError)
  deriving Repr, DecidableEq

/-- The environment: exit code returned by running an executable with an
argument vector, and the HTTP response for each URL. -/
structure World where
  run : String → List String → Int
  http : String → HttpResult

/-- Argument list built by `InstallPackage` (main.go lines 120-133). -/
def installArgs (p : PeakPip) (packageSpec : String) : List String :=
  let args := ["install"]
  let args := if p.quiet then args ++ ["--quiet"] else args
  let args := if p.verbose then args ++ ["--verbose"] else args
  let args := if p.userInstall then args ++ ["--user"] else args
  let args := if p.target ≠ "" then args ++ ["--target", p.target] else args
  args ++ [packageSpec]

/-- Argument list built by `UninstallPackage` (main.go lines 144-151). -/
def uninstallArgs (p : PeakPip) (packageName : String) : List String :=
  let args := ["uninstall", "-y"]
  let args := if p.quiet then args ++ ["--quiet"] else args
  let args := if p.verbose then args ++ ["--verbose"] else args
  args ++ [packageName]

/-- Argument list built by `ListPackages` (main.go lines 158-167). -/
def listArgs (p : PeakPip) (outdated : Bool) : List String :=
  let args := ["list"]
  let args := if outdated then args ++ ["--outdated"] else args
  let args := if p.quiet then args ++ ["--quiet"] else args
  let args := if p.verbose then args ++ ["--verbose"] else args
  args

/-- Argument list built by `UpgradePackage` (main.go lines 203-213). -/
def upgradeArgs (p : PeakPip) (packageName : String) : List String :=
  let args := ["install", "--upgrade"]
  let args := if p.quiet then args ++ ["--quiet"] else args
  let args := if p.verbose then args ++ ["--verbose"] else args
  let args := if p.userInstall then args ++ ["--user"] else args
  args ++ [packageName]

/-- Argument list built by `DownloadPackage` (main.go lines 224-234). -/
def downloadArgs (p : PeakPip) (packageName destDir : String) : List String :=
  let args := ["download"]
  let args := if destDir ≠ "" then args ++ ["--dest", destDir] else args
  let args := if p.quiet then args ++ ["--quiet"] else args
  let args := if p.verbose then args ++ ["--verbose"] else args
  args ++ [packageName]

/-- Argument list built by `InstallRequirements` (main.go lines 251-263). -/
def requirementsArgs (p : PeakPip) (requirementsFile : String) : List String :=
  let args := ["install", "-r", requirementsFile]
  let args := if p.quiet then args ++ ["--quiet"] else args
  let args := if p.verbose then args ++ ["--verbose"] else args
  let args := if p.userInstall then args ++ ["--user"] else args
  let args := if p.target ≠ "" then args ++ ["--target", p.target] else args
  args

/-- Models `exec.Command(p.pipPath, args...); cmd.Run()`: spawn the pip
executable and turn a non-zero exit code into Go's `*ExitError`. -/
def runPip (w : World) (p : PeakPip) (args : List String) :
    Except GoError Unit × List Effect :=
  let code := w.run p.pipPath args
  ((if code = 0 then Except.ok () else Except.error (GoError.exitError code)),
    [Effect.spawn p.pipPath args])

/-- Mirrors `InstallPackage` (main.go lines 115-138). -/
def InstallPackage (w : World) (p : PeakPip) (packageSpec : String) :
    Except GoError Unit × List Effect :=
  if p.dryRun then
    (Except.ok (), [Effect.print ("would install: " ++ packageSpec ++ "\n")])
  else
    runPip w p (installArgs p packageSpec)

/-- Mirrors `UninstallPackage` (main.go lines 139-156). -/
def UninstallPackage (w : World) (p : PeakPip) (packageName : String) :
    Except GoError Unit × List Effect :=
  if p.dryRun then
    (Except.ok (), [Effect.print ("would uninstall: " ++ packageName ++ "\n")])
  else
    runPip w p (uninstallArgs p packageName)

/-- Mirrors `ListPackages` (main.go lines 157-172); note it does not
consult `dryRun`. -/
def ListPackages (w : World) (p : PeakPip) (outdated : Bool) :
    Except GoError Unit × List Effect :=
  runPip w p (listArgs p outdated)

/-- Mirrors `UpgradePackage` (main.go lines 198-218). -/
def UpgradePackage (w : World) (p : PeakPip) (packageName : String) :
    Except GoError Unit × List Effect :=
  if p.dryRun then
    (Except.ok (), [Effect.print ("would upgrade: " ++ packageName ++ "\n")])
  else
    runPip w p (upgradeArgs p packageName)

/-- Mirrors `DownloadPackage` (main.go lines 219-239). -/
def DownloadPackage (w : World) (p : PeakPip) (packageName destDir : String) :
    Except GoError Unit × List Effect :=
  if p.dryRun then
    (Except.ok (),
      [Effect.print ("would download: " ++ packageName ++ " to " ++ destDir ++ "\n")])
  else
    runPip w p (downloadArgs p packageName destDir)

/-- Mirrors `FreezePackages` (main.go lines 240-245); no `dryRun` branch. -/
def FreezePackages (w : World) (p : PeakPip) :
    Except GoError Unit × List Effect :=
  runPip w p ["freeze"]

/-- Mirrors `InstallRequirements` (main.go lines 246-268). -/
def InstallRequirements (w : World) (p : PeakPip) (requirementsFile : String) :
    Except GoError Unit × List Effect :=
  if p.dryRun then
    (Except.ok (),
      [Effect.print ("would install requirements from: " ++ requirementsFile ++ "\n")])
  else
    runPip w p (requirementsArgs p requirementsFile)

/-- Mirrors `CheckPackage` (main.go lines 269-272): runs `pip show <name>`
with no `dryRun` branch. -/
def CheckPackage (w : World) (p : PeakPip) (packageName : String) :
    Except GoError Unit × List Effect :=
  runPip w p ["show", packageName]

/-- Mirrors `GetPackageInfo` (main.go lines 83-98): GET `<PyPIURL>/<name>/json`,
error on transport failure, "package not found" on any status other than 200,
"failed to decode" on malformed JSON, otherwise the decoded record. -/
def GetPackageInfo (w : World) (p : PeakPip) (packageName : String) :
    Except GoError PackageInfo × List Effect :=
  let url := infoURL packageName
  match w.http url with
  | HttpResult.failure msg =>
      (Except.error (GoError.fetchFailed msg), [Effect.httpGet url])
  | HttpResult.response status body =>
      if status ≠ 200 then
        (Except.error (GoError.notFound packageName), [Effect.httpGet url])
      else
        match body with
        | JsonBody.malformed msg =>
            (Except.error (GoError.decodeFailed msg), [Effect.httpGet url])
        | JsonBody.wellFormed info =>
            (Except.ok info, [Effect.httpGet url])

/-- Mirrors `SearchPackages` (main.go lines 99-114): probe the simple index;
on status 200 delegate to `GetPackageInfo` and return a singleton list, on
any other status return the empty list with a nil error. -/
def SearchPackages (w : World) (p : PeakPip) (query : String) :
    Except GoError (List Package) × List Effect :=
  let url := simpleURL query
  match w.http url with
  | HttpResult.failure msg =>
      (Except.error (GoError.searchFailed msg), [Effect.httpGet url])
  | HttpResult.response status _ =>
      if status = 200 then
        let (r, eff) := GetPackageInfo w p query
        match r with
        | Except.error e => (Except.error e, Effect.httpGet url :: eff)
        | Except.ok info => (Except.ok [info.info], Effect.httpGet url :: eff)
      else
        (Except.ok [], [Effect.httpGet url])

/-- The stdout lines printed by `ShowPackage` on success (main.go
lines 178-195). -/
def showLines (info : Package) : List Effect :=
  [Effect.print ("name: " ++ info.name ++ "\n"),
   Effect.print ("version: " ++ info.version ++ "\n"),
   Effect.print ("summary: " ++ info.summary ++ "\n"),
   Effect.print ("author: " ++ info.author ++ "\n"),
   Effect.print ("homepage: " ++ info.homepage ++ "\n"),
   Effect.print ("license: " ++ info.license ++ "\n")]
  ++ (if info.dependencies.length > 0 then
        Effect.print "dependencies:\n" ::
          info.dependencies.map (fun d => Effect.print ("  " ++ d ++ "\n"))
      else [])
  ++ (if info.classifiers.length > 0 then
        Effect.print "classifiers:\n" ::
          info.classifiers.map (fun c => Effect.print ("  " ++ c ++ "\n"))
      else [])

/-- Mirrors `ShowPackage` (main.go lines 173-197). -/
def ShowPackage (w : World) (p : PeakPip) (packageName : String) :
    Except GoError Unit × List Effect :=
  let (r, eff) := GetPackageInfo w p packageName
  match r with
  | Except.error e => (Except.error e, eff)
  | Except.ok packageInfo => (Except.ok (), eff ++ showLines packageInfo.info)

/-- Shape shared by the `RunE` loops of install, uninstall, show, upgrade and
download (main.go lines 292-299, 315-322, 337-347, 368-375, 381-389): run
`step` on each name in order; on the first error, wrap it with the command's
message and return, skipping the remaining names. -/
def runEach (step : String → Except GoError Unit × List Effect)
    (wrapMsg : String → String) : List String → Except GoError Unit × List Effect
  | [] => (Except.ok (), [])
  | pkg :: rest =>
    let (r, eff) := step pkg
    match r with
    | Except.error e => (Except.error (GoError.wrap (wrapMsg pkg) e), eff)
    | Except.ok _ =>
      let (r2, eff2) := runEach step wrapMsg rest
      (r2, eff ++ eff2)

/-- Mirrors `installCmd.RunE` (main.go lines 292-299). -/
def installCmdRun (w : World) (p : PeakPip) (args : List String) :
    Except GoError Unit × List Effect :=
  runEach (InstallPackage w p) (fun pkg => "failed to install " ++ pkg) args

/-- Mirrors `uninstallCmd.RunE` (main.go lines 315-322). -/
def uninstallCmdRun (w : World) (p : PeakPip) (args : List String) :
    Except GoError Unit × List Effect :=
  runEach (UninstallPackage w p) (fun pkg => "failed to uninstall " ++ pkg) args

/-- One iteration of `showCmd.RunE`'s loop body (main.go lines 338-345):
show the package, then print a `---` separator when more than one name was
supplied. -/
def showStep (w : World) (p : PeakPip) (total : Nat) (pkg : String) :
    Except GoError Unit × List Effect :=
  let (r, eff) := ShowPackage w p pkg
  match r with
  | Except.error e => (Except.error e, eff)
  | Except.ok _ =>
      (Except.ok (), eff ++ (if total > 1 then [Effect.print "---\n"] else []))

/-- Mirrors `showCmd.RunE` (main.go lines 337-347). -/
def showCmdRun (w : World) (p : PeakPip) (args : List String) :
    Except GoError Unit × List Effect :=
  runEach (showStep w p args.length) (fun pkg => "failed to show " ++ pkg) args

/-- Mirrors `searchCmd.RunE` (main.go lines 353-362): search, then print one
line per returned package. -/
def searchCmdRun (w : World) (p : PeakPip) (query : String) :
    Except GoError Unit × List Effect :=
  let (r, eff) := SearchPackages w p query
  match r with
  | Except.error e => (Except.error e, eff)
  | Except.ok pkgs =>
      (Except.ok (),
        eff ++ pkgs.map (fun pkg =>
          Effect.print (pkg.name ++ " (" ++ pkg.version ++ ") - " ++ pkg.summary ++ "\n")))

/-- Mirrors `upgradeCmd.RunE` (main.go lines 368-375). -/
def upgradeCmdRun (w : World) (p : PeakPip) (args : List String) :
    Except GoError Unit × List Effect :=
  runEach (UpgradePackage w p) (fun pkg => "failed to upgrade " ++ pkg) args

/-- Mirrors `downloadCmd.RunE` (main.go lines 381-389). -/
def downloadCmdRun (w : World) (p : PeakPip) (destDir : String) (args : List String) :
    Except GoError Unit × List Effect :=
  runEach (fun pkg => DownloadPackage w p pkg destDir)
    (fun pkg => "failed to download " ++ pkg) args

/-- Mirrors `checkCmd.RunE` (main.go lines 403-412): every name is checked;
a failing `pip show` only prints "not installed", and the loop always
returns nil. -/
def checkCmdRun (w : World) (p : PeakPip) : List String →
    Except GoError Unit × List Effect
  | [] => (Except.ok (), [])
  | pkg :: rest =>
    let (r, eff) := CheckPackage w p pkg
    let line :=
      match r with
      | Except.error _ => Effect.print (pkg ++ ": not installed\n")
      | Except.ok _ => Effect.print (pkg ++ ": installed\n")
    let (r2, eff2) := checkCmdRun w p rest
    (r2, eff ++ line :: eff2)

/-- The CLI verbs registered on the root command (main.go line 414). -/
inductive Verb where
  | install
  | uninstall
  | list
  | showPkg
  | search
  | upgrade
  | download
  | freeze
  | check
  deriving Repr, DecidableEq

/-- Per-command flags read inside `RunE`/`PreRunE`: `--outdated` (list),
`--dest` (download) and `--requirements` (install). -/
structure CmdFlags where
  outdated : Bool := false
  destDir : String := ""
  reqFile : String := ""
  deriving Repr, DecidableEq

/-- Flag values when none of the per-command flags is supplied. -/
def noFlags : CmdFlags := {}

/-- Cobra argument-count validation attached to each command:
`cobra.MinimumNArgs(1)` for install/uninstall/show/upgrade/download/check,
`cobra.ExactArgs(1)` for search, unrestricted for list and freeze, with
cobra's error messages. -/
def argsValid : Verb → Nat → Option GoError
  | Verb.install, n | Verb.uninstall, n | Verb.showPkg, n
  | Verb.upgrade, n | Verb.download, n | Verb.check, n =>
      if n < 1 then
        some (GoError.usage ("requires at least 1 arg(s), only received " ++ toString n))
      else none
  | Verb.search, n =>
      if n ≠ 1 then
        some (GoError.usage ("accepts 1 arg(s), received " ++ toString n))
      else none
  | Verb.list, _ => none
  | Verb.freeze, _ => none

/-- Dispatch after successful argument validation: `installCmd` first runs its
`PreRunE` (requirements install, main.go lines 304-310) and then its `RunE`;
every other verb runs its `RunE` directly. -/
def runVerb (w : World) (p : PeakPip) (fl : CmdFlags) :
    Verb → List String → Except GoError Unit × List Effect
  | Verb.install, args =>
      if fl.reqFile ≠ "" then
        let (r, eff) := InstallRequirements w p fl.reqFile
        match r with
        | Except.error e => (Except.error e, eff)
        | Except.ok _ =>
          let (r2, eff2) := installCmdRun w p args
          (r2, eff ++ eff2)
      else installCmdRun w p args
  | Verb.uninstall, args => uninstallCmdRun w p args
  | Verb.list, _ => ListPackages w p fl.outdated
  | Verb.showPkg, args => showCmdRun w p args
  | Verb.search, args => searchCmdRun w p (args.headD "")
  | Verb.upgrade, args => upgradeCmdRun w p args
  | Verb.download, args => downloadCmdRun w p fl.destDir args
  | Verb.freeze, _ => FreezePackages w p
  | Verb.check, args => checkCmdRun w p args

/-- One command invocation as cobra executes it: validate the argument count
first (before any `PreRunE`/`RunE`, hence before any subprocess or HTTP
effect), then run the verb. -/
def execute (w : World) (p : PeakPip) (fl : CmdFlags) (v : Verb)
    (args : List String) : Except GoError Unit × List Effect :=
  match argsValid v args.length with
  | some e => (Except.error e, [])
  | none => runVerb w p fl v args

/-- Mirrors `main` (main.go lines 415-418): exit status 0 when
`rootCmd.Execute()` returns nil, 1 on any error. -/
def mainExit (w : World) (p : PeakPip) (fl : CmdFlags) (v : Verb)
    (args : List String) : Nat :=
  match (execute w p fl v args).1 with
  | Except.ok _ => 0
  | Except.error _ => 1

/-- The argument vectors of the subprocesses spawned in an effect trace, in
order. -/
def spawnArgs : List Effect → List (List String)
  | [] => []
  | Effect.spawn _ a :: rest => a :: spawnArgs rest
  | Effect.httpGet _ :: rest => spawnArgs rest
  | Effect.print _ :: rest => spawnArgs rest

/-- The stdout line `checkCmd.RunE` prints for one package (main.go
lines 405-409), as a function of the `pip show` result. -/
def checkLine (w : World) (p : PeakPip) (pkg : String) : Effect :=
  match (CheckPackage w p pkg).1 with
  | Except.error _ => Effect.print (pkg ++ ": not installed\n")
  | Except.ok _ => Effect.print (pkg ++ ": installed\n")

/-- A concrete decoded record, used as a test fixture. -/
def samplePackage : Package :=
  { name := "requests"
    version := "2.32.0"
    summary := "http for humans"
    description := ""
    author := "kr"
    homepage := "https://requests.dev"
    license := "Apache-2.0"
    keywords := []
    classifiers := []
    dependencies := ["charset_normalizer", "idna"]
    urls := [] }

/-- A concrete `PackageInfo` fixture wrapping `samplePackage`. -/
def samplePI : PackageInfo :=
  { info := samplePackage, releases := [], urls := [] }

/-- World where every subprocess succeeds and every HTTP GET yields 404. -/
def w404 : World :=
  { run := fun _ _ => 0
    http := fun _ => HttpResult.response 404 (JsonBody.malformed "") }

/-- World where every HTTP GET yields status 201 with a well-formed body. -/
def w201 : World :=
  { run := fun _ _ => 0
    http := fun _ => HttpResult.response 201 (JsonBody.wellFormed samplePI) }

/-- World where the JSON index URL for `left-pad` answers 200 with a
well-formed body and every other URL (including the simple-index probe)
answers 200 with a non-JSON body. -/
def wProbeHit : World :=
  { run := fun _ _ => 0
    http := fun u =>
      if u = infoURL "left-pad" then HttpResult.response 200 (JsonBody.wellFormed samplePI)
      else HttpResult.response 200 (JsonBody.malformed "html") }

/-- World where every subprocess exits with code 3. -/
def wExit3 : World :=
  { run := fun _ _ => 3
    http := fun _ => HttpResult.response 404 (JsonBody.malformed "") }

/-- World where exactly the subprocess `pip show a` fails (exit 1) and every
other subprocess succeeds. -/
def wShowAFails : World :=
  { run := fun _ args => if args = ["show", "a"] then 1 else 0
    http := fun _ => HttpResult.response 404 (JsonBody.malformed "") }

/-- An initialized configuration with `--dry-run` set. -/
def pDry : PeakPip := { initPip "pip" with dryRun := true }

theorem spawnArgs_append (l1 l2 : List Effect) :
    spawnArgs (l1 ++ l2) = spawnArgs l1 ++ spawnArgs l2 := by
  induction l1 with
  | nil => rfl
  | cons e rest ih => cases e <;> simp [spawnArgs, ih]

theorem spawnArgs_map_print {α : Type} (f : α → String) (l : List α) :
    spawnArgs (l.map (fun d => Effect.print (f d))) = [] := by
  induction l with
  | nil => rfl
  | cons d rest ih => simp [spawnArgs, ih]

theorem spawnArgs_showLines (i : Package) : spawnArgs (showLines i) = [] := by
  unfold showLines
  rw [spawnArgs_append, spawnArgs_append]
  split_ifs <;>
    simp [spawnArgs, spawnArgs_map_print (fun d => "  " ++ d ++ "\n")]

theorem spawnArgs_GetPackageInfo (w : World) (p : PeakPip) (name : String) :
    spawnArgs (GetPackageInfo w p name).2 = [] := by
  rcases h : w.http (infoURL name) with msg | ⟨status, body⟩
  · simp [GetPackageInfo, h, spawnArgs]
  · by_cases hs : status = 200
    · subst hs
      cases body <;> simp [GetPackageInfo, h, spawnArgs]
    · simp [GetPackageInfo, h, hs, spawnArgs]

theorem spawnArgs_ShowPackage (w : World) (p : PeakPip) (name : String) :
    spawnArgs (ShowPackage w p name).2 = [] := by
  unfold ShowPackage
  have hg := spawnArgs_GetPackageInfo w p name
  rcases h : GetPackageInfo w p name with ⟨r, eff⟩
  rw [h] at hg
  cases r <;> simp [spawnArgs_append, hg, spawnArgs_showLines]

theorem spawnArgs_showStep (w : World) (p : PeakPip) (total : Nat) (pkg : String) :
    spawnArgs (showStep w p total pkg).2 = [] := by
  unfold showStep
  have hs := spawnArgs_ShowPackage w p pkg
  rcases h : ShowPackage w p pkg with ⟨r, eff⟩
  rw [h] at hs
  cases r <;> split_ifs <;> simp_all [spawnArgs_append, spawnArgs]

theorem spawnArgs_SearchPackages (w : World) (p : PeakPip) (q : String) :
    spawnArgs (SearchPackages w p q).2 = [] := by
  rcases h : w.http (simpleURL q) with msg | ⟨status, body⟩
  · simp [SearchPackages, h, spawnArgs]
  · by_cases hs : status = 200
    · subst hs
      have hg := spawnArgs_GetPackageInfo w p q
      rcases hgi : GetPackageInfo w p q with ⟨r, eff⟩
      rw [hgi] at hg
      cases r <;> simp [SearchPackages, h, hgi, spawnArgs, hg]
    · simp [SearchPackages, h, hs, spawnArgs]

theorem runEach_abort (step : String → Except GoError Unit × List Effect)
    (wrapMsg : String → String) (e : GoError) (x : String) (xs ys : List String)
    (hok : ∀ y ∈ xs, (step y).1 = Except.ok ())
    (hx : (step x).1 = Except.error e) :
    runEach step wrapMsg (xs ++ x :: ys) =
      (Except.error (GoError.wrap (wrapMsg x) e),
       (xs.map (fun y => (step y).2)).flatten ++ (step x).2) := by
  induction xs with
  | nil =>
      rcases hs : step x with ⟨r, eff⟩
      rw [hs] at hx
      simp at hx
      subst hx
      simp [runEach, hs]
  | cons y rest ih =>
      have hy : (step y).1 = Except.ok () := hok y (by simp)
      rcases hsy : step y with ⟨ry, effy⟩
      rw [hsy] at hy
      simp at hy
      subst hy
      have := ih (fun z hz => hok z (by simp [hz]))
      simp [runEach, hsy, this]

theorem checkCmdRun_spec (w : World) (p : PeakPip) (names : List String) :
    (checkCmdRun w p names).1 = Except.ok () ∧
    (checkCmdRun w p names).2 =
      (names.map (fun pkg => (CheckPackage w p pkg).2 ++ [checkLine w p pkg])).flatten := by
  induction names with
  | nil => exact ⟨rfl, rfl⟩
  | cons pkg rest ih =>
      rcases hc : CheckPackage w p pkg with ⟨r, eff⟩
      have hline : checkLine w p pkg =
          (match r with
           | Except.error _ => Effect.print (pkg ++ ": not installed\n")
           | Except.ok _ => Effect.print (pkg ++ ": installed\n")) := by
        simp [checkLine, hc]
        cases r <;> rfl
      cases r <;> simp [checkCmdRun, hc, ih.1, ih.2, hline]

/-- C9: for every configuration and package name, the uninstall argument
list starts `uninstall -y`, so the wrapped manager never asks for
confirmation; outside dry-run mode the spawned subprocess receives exactly
that list. -/
theorem uninstall_always_auto_confirm (w : World) (p : PeakPip) (pkg : String) :
    (uninstallArgs p pkg).take 2 = ["uninstall", "-y"] ∧
    (UninstallPackage w { p with dryRun := false } pkg).2 =
      [Effect.spawn p.pipPath (uninstallArgs p pkg)] := by
  constructor
  · obtain ⟨a1, a2, a3, q, vb, dr, ui, tg⟩ := p
    cases q <;> cases vb <;> rfl
  · rfl

/-- C1 (counterexample): with `--dry-run` set, the list, freeze and check
commands still spawn a `pip` subprocess, refuting the claim that dry-run
suppresses subprocesses for all verbs. -/
theorem dryRun_list_freeze_check_spawn :
    pDry.dryRun = true ∧
    (execute w404 pDry noFlags Verb.list []).2 = [Effect.spawn "pip" ["list"]] ∧
    (execute w404 pDry noFlags Verb.freeze []).2 = [Effect.spawn "pip" ["freeze"]] ∧
    (execute w404 pDry noFlags Verb.check ["requests"]).2 =
      [Effect.spawn "pip" ["show", "requests"],
       Effect.print "requests: installed\n"] :=
  ⟨rfl, rfl, rfl, rfl⟩

/-- C1 (amended): with `--dry-run` set, install, uninstall, upgrade,
download and requirements-install spawn nothing and print a single message
naming the action and its target, while list, freeze and check ignore the
flag and always spawn the wrapped manager. -/
theorem dryRun_behavior (w : World) (p : PeakPip) (x d f : String) (o : Bool) :
    InstallPackage w { p with dryRun := true } x =
      (Except.ok (), [Effect.print ("would install: " ++ x ++ "\n")]) ∧
    UninstallPackage w { p with dryRun := true } x =
      (Except.ok (), [Effect.print ("would uninstall: " ++ x ++ "\n")]) ∧
    UpgradePackage w { p with dryRun := true } x =
      (Except.ok (), [Effect.print ("would upgrade: " ++ x ++ "\n")]) ∧
    DownloadPackage w { p with dryRun := true } x d =
      (Except.ok (), [Effect.print ("would download: " ++ x ++ " to " ++ d ++ "\n")]) ∧
    InstallRequirements w { p with dryRun := true } f =
      (Except.ok (), [Effect.print ("would install requirements from: " ++ f ++ "\n")]) ∧
    (ListPackages w { p with dryRun := true } o).2 =
      [Effect.spawn p.pipPath (listArgs p o)] ∧
    (FreezePackages w { p with dryRun := true }).2 =
      [Effect.spawn p.pipPath ["freeze"]] ∧
    (CheckPackage w { p with dryRun := true } x).2 =
      [Effect.spawn p.pipPath ["show", x]] :=
  ⟨rfl, rfl, rfl, rfl, rfl, rfl, rfl, rfl⟩

/-- C5: for install, uninstall, show, upgrade, download and check, an empty
argument list fails cobra's `MinimumNArgs(1)` validation with an empty
effect trace (no subprocess, no HTTP request); search fails `ExactArgs(1)`
the same way on zero or several arguments. -/
theorem zero_args_rejected (w : World) (p : PeakPip) (fl : CmdFlags) :
    execute w p fl Verb.install [] =
      (Except.error (GoError.usage "requires at least 1 arg(s), only received 0"), []) ∧
    execute w p fl Verb.uninstall [] =
      (Except.error (GoError.usage "requires at least 1 arg(s), only received 0"), []) ∧
    execute w p fl Verb.showPkg [] =
      (Except.error (GoError.usage "requires at least 1 arg(s), only received 0"), []) ∧
    execute w p fl Verb.upgrade [] =
      (Except.error (GoError.usage "requires at least 1 arg(s), only received 0"), []) ∧
    execute w p fl Verb.download [] =
      (Except.error (GoError.usage "requires at least 1 arg(s), only received 0"), []) ∧
    execute w p fl Verb.check [] =
      (Except.error (GoError.usage "requires at least 1 arg(s), only received 0"), []) ∧
    execute w p fl Verb.search [] =
      (Except.error (GoError.usage "accepts 1 arg(s), received 0"), []) ∧
    (∀ (a b : String) (rest : List String),
      execute w p fl Verb.search (a :: b :: rest) =
        (Except.error
          (GoError.usage ("accepts 1 arg(s), received " ++ toString (rest.length + 2))), [])) :=
  ⟨rfl, rfl, rfl, rfl, rfl, rfl, rfl, fun _ _ _ => rfl⟩

/-- C4 (counterexample): in a world where `pip show a` fails, `check a b`
still checks `b` (its subprocess is spawned) and the command returns nil,
refuting first-failure abortion and the non-zero result for check. -/
theorem check_continues_after_failure :
    wShowAFails.run "pip" ["show", "a"] = 1 ∧
    checkCmdRun wShowAFails (initPip "pip") ["a", "b"] =
      (Except.ok (),
       [Effect.spawn "pip" ["show", "a"], Effect.print "a: not installed\n",
        Effect.spawn "pip" ["show", "b"], Effect.print "b: installed\n"]) :=
  ⟨rfl, rfl⟩

/-- C4 (amended): the install, uninstall, show, upgrade and download loops
(all instances of `runEach`) abort at the first failing package, performing
no effect for any later name and returning a wrapped error; the check loop
instead processes every name and always returns nil. -/
theorem batch_abort_except_check :
    (∀ (step : String → Except GoError Unit × List Effect)
       (wrapMsg : String → String) (e : GoError) (x : String) (xs ys : List String),
       (∀ y ∈ xs, (step y).1 = Except.ok ()) →
       (step x).1 = Except.error e →
       runEach step wrapMsg (xs ++ x :: ys) =
         (Except.error (GoError.wrap (wrapMsg x) e),
          (xs.map (fun y => (step y).2)).flatten ++ (step x).2)) ∧
    (∀ (w : World) (p : PeakPip) (names : List String),
       (checkCmdRun w p names).1 = Except.ok () ∧
       (checkCmdRun w p names).2 =
         (names.map (fun pkg => (CheckPackage w p pkg).2 ++ [checkLine w p pkg])).flatten) :=
  ⟨runEach_abort, checkCmdRun_spec⟩

/-- Witness for `batch_abort_except_check`: a two-name install batch whose
first name fails performs only the first install attempt. -/
theorem batch_abort_except_check_witness :
    installCmdRun wExit3 (initPip "pip") ["a", "b"] =
      (Except.error (GoError.wrap "failed to install a" (GoError.exitError 3)),
       [Effect.spawn "pip" ["install", "a"]]) :=
  batch_abort_except_check.1 (InstallPackage wExit3 (initPip "pip"))
    (fun pkg => "failed to install " ++ pkg) (GoError.exitError 3) "a" [] ["b"]
    (by simp) rfl

/-- C2: with the minimal valid argument set (one package name where one is
required, none otherwise) and default flags, every verb that reaches the
wrapped manager spawns argument lists whose first token is the manager's
operation verb ("install" for upgrade, "show" for check) followed by fixed
behavior flags, with the user-supplied package name as the trailing token;
show and search spawn no subprocess at all. -/
theorem subprocess_arg_order (w : World) (pp pkg : String) :
    spawnArgs (execute w (initPip pp) noFlags Verb.install [pkg]).2 = [["install", pkg]] ∧
    spawnArgs (execute w (initPip pp) noFlags Verb.uninstall [pkg]).2 =
      [["uninstall", "-y", pkg]] ∧
    spawnArgs (execute w (initPip pp) noFlags Verb.upgrade [pkg]).2 =
      [["install", "--upgrade", pkg]] ∧
    spawnArgs (execute w (initPip pp) noFlags Verb.download [pkg]).2 = [["download", pkg]] ∧
    spawnArgs (execute w (initPip pp) noFlags Verb.check [pkg]).2 = [["show", pkg]] ∧
    spawnArgs (execute w (initPip pp) noFlags Verb.list []).2 = [["list"]] ∧
    spawnArgs (execute w (initPip pp) noFlags Verb.freeze []).2 = [["freeze"]] ∧
    spawnArgs (execute w (initPip pp) noFlags Verb.showPkg [pkg]).2 = [] ∧
    spawnArgs (execute w (initPip pp) noFlags Verb.search [pkg]).2 = [] := by
  refine ⟨?_, ?_, ?_, ?_, ?_, ?_, ?_, ?_, ?_⟩
  · by_cases h : w.run pp ["install", pkg] = 0 <;>
      simp [execute, argsValid, runVerb, noFlags, installCmdRun, runEach,
            InstallPackage, initPip, NewPeakPip, runPip, installArgs, h, spawnArgs]
  · by_cases h : w.run pp ["uninstall", "-y", pkg] = 0 <;>
      simp [execute, argsValid, runVerb, noFlags, uninstallCmdRun, runEach,
            UninstallPackage, initPip, NewPeakPip, runPip, uninstallArgs, h, spawnArgs]
  · by_cases h : w.run pp ["install", "--upgrade", pkg] = 0 <;>
      simp [execute, argsValid, runVerb, noFlags, upgradeCmdRun, runEach,
            UpgradePackage, initPip, NewPeakPip, runPip, upgradeArgs, h, spawnArgs]
  · by_cases h : w.run pp ["download", pkg] = 0 <;>
      simp [execute, argsValid, runVerb, noFlags, downloadCmdRun, runEach,
            DownloadPackage, initPip, NewPeakPip, runPip, downloadArgs, h, spawnArgs]
  · by_cases h : w.run pp ["show", pkg] = 0 <;>
      simp [execute, argsValid, runVerb, noFlags, checkCmdRun, CheckPackage,
            initPip, NewPeakPip, runPip, h, spawnArgs]
  · by_cases h : w.run pp ["list"] = 0 <;>
      simp [execute, argsValid, runVerb, noFlags, ListPackages, listArgs,
            initPip, NewPeakPip, runPip, h, spawnArgs]
  · by_cases h : w.run pp ["freeze"] = 0 <;>
      simp [execute, argsValid, runVerb, noFlags, FreezePackages,
            initPip, NewPeakPip, runPip, h, spawnArgs]
  · have hs := spawnArgs_showStep w (initPip pp) 1 pkg
    rcases h : showStep w (initPip pp) 1 pkg with ⟨r, eff⟩
    rw [h] at hs
    cases r <;>
      simp [execute, argsValid, runVerb, noFlags, showCmdRun, runEach, h,
            spawnArgs, spawnArgs_append, hs]
  · have hs := spawnArgs_SearchPackages w (initPip pp) pkg
    rcases h : SearchPackages w (initPip pp) pkg with ⟨r, eff⟩
    rw [h] at hs
    cases r <;>
      simp [execute, argsValid, runVerb, noFlags, searchCmdRun, h,
            spawnArgs, spawnArgs_append, hs,
            spawnArgs_map_print (fun pkg : Package =>
              pkg.name ++ " (" ++ pkg.version ++ ") - " ++ pkg.summary ++ "\n")]

/-- C3 (counterexample): a 2xx response other than 200 (status 201) with a
well-formed JSON body makes `GetPackageInfo` return the "package not found"
error instead of the decoded record, refuting the non-2xx/2xx reading. -/
theorem getPackageInfo_status201_notFound :
    w201.http (infoURL "requests") =
      HttpResult.response 201 (JsonBody.wellFormed samplePI) ∧
    (GetPackageInfo w201 NewPeakPip "requests").1 =
      Except.error (GoError.notFound "requests") :=
  ⟨rfl, rfl⟩

/-- C3 (amended): `GetPackageInfo` issues exactly one GET to
`<PyPIURL>/<name>/json` and returns the transport error on request failure,
the NotFound error on every response whose status is not exactly 200, the
DecodeError on a 200 response with malformed JSON, and the decoded record
on a 200 response with well-formed JSON. -/
theorem getPackageInfo_contract (w : World) (p : PeakPip) (name : String) :
    (GetPackageInfo w p name).2 = [Effect.httpGet (infoURL name)] ∧
    (∀ msg, w.http (infoURL name) = HttpResult.failure msg →
      (GetPackageInfo w p name).1 = Except.error (GoError.fetchFailed msg)) ∧
    (∀ status body, w.http (infoURL name) = HttpResult.response status body →
      status ≠ 200 →
      (GetPackageInfo w p name).1 = Except.error (GoError.notFound name)) ∧
    (∀ msg, w.http (infoURL name) = HttpResult.response 200 (JsonBody.malformed msg) →
      (GetPackageInfo w p name).1 = Except.error (GoError.decodeFailed msg)) ∧
    (∀ info, w.http (infoURL name) = HttpResult.response 200 (JsonBody.wellFormed info) →
      (GetPackageInfo w p name).1 = Except.ok info) := by
  refine ⟨?_, ?_, ?_, ?_, ?_⟩
  · rcases h : w.http (infoURL name) with msg | ⟨status, body⟩
    · simp [GetPackageInfo, h]
    · by_cases hs : status = 200
      · subst hs
        cases body <;> simp [GetPackageInfo, h]
      · simp [GetPackageInfo, h, hs]
  · intro msg h
    simp [GetPackageInfo, h]
  · intro status body h hs
    simp [GetPackageInfo, h, hs]
  · intro msg h
    simp [GetPackageInfo, h]
  · intro info h
    simp [GetPackageInfo, h]

/-- Witness for `getPackageInfo_contract`: a nonexistent package (every URL
answers 404 in `w404`) yields the NotFound error and the single GET. -/
theorem getPackageInfo_contract_witness :
    (GetPackageInfo w404 NewPeakPip "nonexistent-package-xyz").1 =
      Except.error (GoError.notFound "nonexistent-package-xyz") ∧
    (GetPackageInfo w404 NewPeakPip "nonexistent-package-xyz").2 =
      [Effect.httpGet (infoURL "nonexistent-package-xyz")] :=
  ⟨(getPackageInfo_contract w404 NewPeakPip "nonexistent-package-xyz").2.2.1
      404 (JsonBody.malformed "") rfl (by decide),
   (getPackageInfo_contract w404 NewPeakPip "nonexistent-package-xyz").1⟩

/-- C6: `SearchPackages` never returns more than one package, and when the
simple-index probe answers 200 and `GetPackageInfo` succeeds for the same
query, the result is exactly the singleton holding that record. -/
theorem search_at_most_one (w : World) (p : PeakPip) (q : String) :
    (∀ l, (SearchPackages w p q).1 = Except.ok l → l.length ≤ 1) ∧
    (∀ status body info,
      w.http (simpleURL q) = HttpResult.response status body →
      status = 200 →
      (GetPackageInfo w p q).1 = Except.ok info →
      (SearchPackages w p q).1 = Except.ok [info.info]) := by
  constructor
  · intro l hl
    rcases h : w.http (simpleURL q) with msg | ⟨status, body⟩
    · simp [SearchPackages, h] at hl
    · by_cases hs : status = 200
      · subst hs
        rcases hgi : GetPackageInfo w p q with ⟨r, eff⟩
        cases r with
        | error e => simp [SearchPackages, h, hgi] at hl
        | ok info =>
            simp [SearchPackages, h, hgi] at hl
            subst hl
            simp
      · simp [SearchPackages, h, hs] at hl
        subst hl
        simp
  · intro status body info hh hs hg
    subst hs
    rcases hgi : GetPackageInfo w p q with ⟨r, eff⟩
    rw [hgi] at hg
    simp at hg
    subst hg
    simp [SearchPackages, hh, hgi]

/-- Witness for `search_at_most_one`: in `wProbeHit` the probe for
`left-pad` answers 200 and the JSON endpoint decodes, so search returns the
singleton record. -/
theorem search_at_most_one_witness :
    (SearchPackages wProbeHit NewPeakPip "left-pad").1 =
      Except.ok [samplePI.info] :=
  (search_at_most_one wProbeHit NewPeakPip "left-pad").2
    200 (JsonBody.malformed "html") samplePI (by decide) rfl rfl

/-- C10: whenever the simple-index probe answers with any status other than
200, `SearchPackages` returns the empty list with a nil error after that
single GET, and the search command succeeds printing nothing. -/
theorem search_probe_miss_empty_ok (w : World) (p : PeakPip) (q : String)
    (status : Nat) (body : JsonBody)
    (h : w.http (simpleURL q) = HttpResult.response status body)
    (hs : status ≠ 200) :
    SearchPackages w p q = (Except.ok [], [Effect.httpGet (simpleURL q)]) ∧
    searchCmdRun w p q = (Except.ok (), [Effect.httpGet (simpleURL q)]) := by
  have h1 : SearchPackages w p q = (Except.ok [], [Effect.httpGet (simpleURL q)]) := by
    simp [SearchPackages, h, hs]
  exact ⟨h1, by simp [searchCmdRun, h1]⟩

/-- Witness for `search_probe_miss_empty_ok`: a 404 probe makes search
return no results and succeed. -/
theorem search_probe_miss_empty_ok_witness :
    SearchPackages w404 NewPeakPip "nonexistent-package-xyz" =
      (Except.ok [], [Effect.httpGet (simpleURL "nonexistent-package-xyz")]) ∧
    searchCmdRun w404 NewPeakPip "nonexistent-package-xyz" =
      (Except.ok (), [Effect.httpGet (simpleURL "nonexistent-package-xyz")]) :=
  search_probe_miss_empty_ok w404 NewPeakPip "nonexistent-package-xyz"
    404 (JsonBody.malformed "") rfl (by decide)

/-- C7 (counterexample): with every subprocess exiting 3, the check command
spawns `pip show foo`, that subprocess fails, yet the dispatcher's exit
status is 0, refuting the mirror property for every command. -/
theorem check_exit_zero_on_subprocess_failure :
    wExit3.run "pip" ["show", "foo"] = 3 ∧
    (execute wExit3 (initPip "pip") noFlags Verb.check ["foo"]).2 =
      [Effect.spawn "pip" ["show", "foo"], Effect.print "foo: not installed\n"] ∧
    mainExit wExit3 (initPip "pip") noFlags Verb.check ["foo"] = 0 :=
  ⟨rfl, rfl, rfl⟩

/-- C7 (amended): for the subprocess-spawning commands other than check
(install, uninstall, upgrade, download, list, freeze, each on its minimal
argument set with default flags), the dispatcher exits 0 when the spawned
subprocess exits 0 and 1 otherwise (it reports 1, not the subprocess's own
code); the check command exits 0 whatever the subprocess status. -/
theorem exit_status_mirror (w : World) (pp pkg : String) (rest : List String) :
    (mainExit w (initPip pp) noFlags Verb.install [pkg] =
      if w.run pp ["install", pkg] = 0 then 0 else 1) ∧
    (mainExit w (initPip pp) noFlags Verb.uninstall [pkg] =
      if w.run pp ["uninstall", "-y", pkg] = 0 then 0 else 1) ∧
    (mainExit w (initPip pp) noFlags Verb.upgrade [pkg] =
      if w.run pp ["install", "--upgrade", pkg] = 0 then 0 else 1) ∧
    (mainExit w (initPip pp) noFlags Verb.download [pkg] =
      if w.run pp ["download", pkg] = 0 then 0 else 1) ∧
    (mainExit w (initPip pp) noFlags Verb.list [] =
      if w.run pp ["list"] = 0 then 0 else 1) ∧
    (mainExit w (initPip pp) noFlags Verb.freeze [] =
      if w.run pp ["freeze"] = 0 then 0 else 1) ∧
    mainExit w (initPip pp) noFlags Verb.check (pkg :: rest) = 0 := by
  refine ⟨?_, ?_, ?_, ?_, ?_, ?_, ?_⟩
  · by_cases h : w.run pp ["install", pkg] = 0 <;>
      simp [mainExit, execute, argsValid, runVerb, noFlags, installCmdRun,
            runEach, InstallPackage, initPip, NewPeakPip, runPip, installArgs, h]
  · by_cases h : w.run pp ["uninstall", "-y", pkg] = 0 <;>
      simp [mainExit, execute, argsValid, runVerb, noFlags, uninstallCmdRun,
            runEach, UninstallPackage, initPip, NewPeakPip, runPip, uninstallArgs, h]
  · by_cases h : w.run pp ["install", "--upgrade", pkg] = 0 <;>
      simp [mainExit, execute, argsValid, runVerb, noFlags, upgradeCmdRun,
            runEach, UpgradePackage, initPip, NewPeakPip, runPip, upgradeArgs, h]
  · by_cases h : w.run pp ["download", pkg] = 0 <;>
      simp [mainExit, execute, argsValid, runVerb, noFlags, downloadCmdRun,
            runEach, DownloadPackage, initPip, NewPeakPip, runPip, downloadArgs, h]
  · by_cases h : w.run pp ["list"] = 0 <;>
      simp [mainExit, execute, argsValid, runVerb, noFlags, ListPackages,
            listArgs, initPip, NewPeakPip, runPip, h]
  · by_cases h : w.run pp ["freeze"] = 0 <;>
      simp [mainExit, execute, argsValid, runVerb, noFlags, FreezePackages,
            initPip, NewPeakPip, runPip, h]
  · have hc := (checkCmdRun_spec w (initPip pp) (pkg :: rest)).1
    simp [mainExit, execute, argsValid, runVerb, hc]

/-- C8: the `concurrent` configuration value influences nothing: any two
runs of any command that differ only in `concurrent` produce the same
result and the same effect trace (subprocesses, HTTP requests and prints),
and the same exit status. -/
theorem concurrent_flag_no_effect (w : World) (p : PeakPip) (fl : CmdFlags)
    (n : Int) (v : Verb) (args : List String) :
    execute w { p with concurrent := n } fl v args = execute w p fl v args ∧
    mainExit w { p with concurrent := n } fl v args = mainExit w p fl v args := by
  have hchk : ∀ l, checkCmdRun w { p with concurrent := n } l = checkCmdRun w p l := by
    intro l
    induction l with
    | nil => rfl
    | cons pkg rest ih =>
        have hcp : CheckPackage w { p with concurrent := n } pkg = CheckPackage w p pkg := rfl
        simp only [checkCmdRun, hcp, ih]
  have h : execute w { p with concurrent := n } fl v args = execute w p fl v args := by
    cases v with
    | check => simp only [execute, runVerb, hchk]
    | _ => rfl
  exact ⟨h, by simp [mainExit, h]⟩
